import Mathlib

/-!
Verification of the query-interpretation and orchestration core of the
Tourism-Agent repository (src/agents/parent_agent.py, weather_agent.py,
places_agent.py).  Text is modelled as lists of characters; the regular
expressions of extract_location are embedded as a specialised backtracking
matcher with Python re semantics (leftmost match, ordered alternation,
lazy +? group, end anchor matching at the end of the string or before a
single trailing newline).  Character predicates model Python's str methods
restricted to ASCII, which covers every string literal occurring in the
source.  Network calls are abstracted as explicit response values or
oracle parameters.
-/

/-- Text is modelled as a list of characters. -/
abbrev Str := List Char

/-- Python whitespace (re class \s and str.split / str.strip) on ASCII:
space, tab, newline, vertical tab, form feed, carriage return. -/
def isWs (c : Char) : Bool := c.toNat == 32 || (9 ≤ c.toNat && c.toNat ≤ 13)

/-- The re character class [A-Z]; also Python str.isupper on ASCII. -/
def isUpperAZ (c : Char) : Bool := 65 ≤ c.toNat && c.toNat ≤ 90

/-- The re character class [a-zA-Z]. -/
def isAlphaAZ (c : Char) : Bool :=
  (65 ≤ c.toNat && c.toNat ≤ 90) || (97 ≤ c.toNat && c.toNat ≤ 122)

/-- Python str.lower on an ASCII character. -/
def pyLowerChar (c : Char) : Char :=
  if 65 ≤ c.toNat ∧ c.toNat ≤ 90 then Char.ofNat (c.toNat + 32) else c

/-- Python str.lower. -/
def pyLower (s : Str) : Str := s.map pyLowerChar

/-- Python str.upper on an ASCII character (used by str.title). -/
def pyUpperChar (c : Char) : Char :=
  if 97 ≤ c.toNat ∧ c.toNat ≤ 122 then Char.ofNat (c.toNat - 32) else c

/-- Python str.strip with no arguments: remove leading and trailing
whitespace. -/
def pyStrip (s : Str) : Str :=
  ((s.dropWhile isWs).reverse.dropWhile isWs).reverse

/-- Helper for pySplit: scan the text, accumulating the current word in
reverse; whitespace flushes the accumulator. -/
def splitAux : Str → Str → List Str
  | [], acc => if acc.isEmpty then [] else [acc.reverse]
  | c :: t, acc =>
    if isWs c then
      if acc.isEmpty then splitAux t [] else acc.reverse :: splitAux t []
    else splitAux t (c :: acc)

/-- Python str.split with no arguments: split on runs of whitespace,
discarding empty pieces. -/
def pySplit (s : Str) : List Str := splitAux s []

/-- Whether a token starts with an uppercase letter (word[0].isupper()
in the source, ASCII model). -/
def headUpper : Str → Bool
  | [] => false
  | c :: _ => isUpperAZ c

/-- Python ' '.join. -/
def joinSpace : List Str → Str
  | [] => []
  | [w] => w
  | w :: v :: rest => w ++ ' ' :: joinSpace (v :: rest)

/-- Match a literal at the front of the text, returning the rest. -/
def dropLit : Str → Str → Option Str
  | [], s => some s
  | _ :: _, [] => none
  | c :: lt, d :: t => if c = d then dropLit lt t else none

/-- Whether the first argument is a prefix of the second (Boolean). -/
def startsWith (a s : Str) : Bool := (dropLit a s).isSome

/-- Python substring containment (the `in` operator on strings). -/
def substrB (a : Str) : Str → Bool
  | [] => a.isEmpty
  | c :: t => startsWith a (c :: t) || substrB a t

/-- The regex piece \s+ : requires at least one whitespace character and
consumes the maximal whitespace run (equivalent to the greedy semantics
here because every continuation of the two source patterns starts with a
non-whitespace character). -/
def wsPlus : Str → Option Str
  | [] => none
  | c :: t => if isWs c then some (t.dropWhile isWs) else none

/-- The connector words of the terminator alternation. -/
def termWords : List Str := List.map String.toList ["let", "what", "and"]

/-- The terminator alternation of both source patterns,
namely the regex piece
matching a comma, a period, the end anchor, or whitespace followed by
one of the connector words let / what / and.  The end anchor matches at
the end of the string or just before a single trailing newline. -/
def termMatches (s : Str) : Bool :=
  match s with
  | [] => true
  | c :: t =>
    c == ',' || c == '.' || (c == '\n' && t.isEmpty) ||
    (isWs c && termWords.any fun lit => (dropLit lit (t.dropWhile isWs)).isSome)

/-- The lazy group piece [a-zA-Z\s]+? followed by the terminator: extend
the group one character at a time (shortest first, as Python's lazy
quantifier does) and stop at the first point where the terminator
matches.  The accumulator holds the group matched so far. -/
def lazyGroup (acc : Str) : Str → Option Str
  | [] => none
  | c :: rest =>
    if isAlphaAZ c || isWs c then
      if termMatches rest then some (acc ++ [c])
      else lazyGroup (acc ++ [c]) rest
    else none

/-- Try one alternative of the leading literal alternation at the current
position: literal, then \s+, then [A-Z], then the lazy group with
terminator.  Returns the text captured by group 1. -/
def tryLit (lit : Str) (s : Str) : Option Str :=
  match dropLit lit s with
  | none => none
  | some r =>
    match wsPlus r with
    | none => none
    | some [] => none
    | some (u :: r3) => if isUpperAZ u then lazyGroup [u] r3 else none

/-- Try the whole pattern at the current position, taking the leading
alternatives in order as Python's backtracking engine does. -/
def tryPatternAt (lits : List Str) (s : Str) : Option Str :=
  match lits with
  | [] => none
  | lit :: rest =>
    match tryLit lit s with
    | some g => some g
    | none => tryPatternAt rest s

/-- re.search: scan start positions left to right and return the group of
the first (leftmost) match. -/
def searchPat (lits : List Str) : Str → Option Str
  | [] => none
  | c :: t =>
    match tryPatternAt lits (c :: t) with
    | some g => some g
    | none => searchPat lits t

/-- Leading alternatives of the first source pattern of extract_location
(parent_agent.py line 65). -/
def pats1 : List Str := List.map String.toList ["going to", "visit", "trip to", "travel to"]

/-- Leading alternatives of the second source pattern of extract_location
(parent_agent.py line 66). -/
def pats2 : List Str := List.map String.toList ["in", "at"]

/-- The stopword list of the fallback scan of extract_location
(parent_agent.py line 82). -/
def stopwords : List Str := List.map String.toList ["i", "i'm", "let's", "what", "is", "the", "and"]

/-- One iteration of the pattern loop of extract_location: search with
the given pattern; on a match, strip the captured group and keep it only
if its length exceeds 2. -/
def patResult (lits : List Str) (user_input : Str) : Option Str :=
  match searchPat lits user_input with
  | none => none
  | some g =>
    let location := pyStrip g
    if 2 < location.length then some location else none

/-- The fallback loop of extract_location (parent_agent.py lines 80-95):
scan tokens; at the first token that starts uppercase and whose lowered
form is not a stopword, greedily extend with following uppercase-starting
tokens; return the space-joined span if longer than 2 characters, else
continue scanning from the next token. -/
def fallbackScan : List Str → Option Str
  | [] => none
  | w :: rest =>
    if headUpper w = true ∧ pyLower w ∉ stopwords then
      let location := joinSpace (w :: rest.takeWhile headUpper)
      if 2 < location.length then some location else fallbackScan rest
    else fallbackScan rest

/-- TourismAgent.extract_location (parent_agent.py lines 55-99). -/
def extract_location (user_input : Str) : Option Str :=
  if (pyStrip user_input).length < 5 then none
  else
    match patResult pats1 user_input with
    | some location => some location
    | none =>
      match patResult pats2 user_input with
      | some location => some location
      | none => fallbackScan (pySplit user_input)

/-- Result of TourismAgent.analyze_intent: the dictionary with keys
weather and places. -/
structure QueryIntent where
  weather : Bool
  places : Bool
deriving DecidableEq, Repr

/-- Weather-intent keywords (parent_agent.py lines 32-35). -/
def weather_keywords : List Str :=
  List.map String.toList ["weather", "temperature", "rain", "forecast", "hot", "cold", "climate", "temp"]

/-- Places-intent keywords (parent_agent.py lines 38-41). -/
def places_keywords : List Str :=
  List.map String.toList
    ["visit", "places", "attractions", "see", "tour", "tourist", "sights", "destination", "spots", "things to do"]

/-- TourismAgent.analyze_intent (parent_agent.py lines 19-53): lowercase
the input, test each vocabulary by substring containment, and default to
wanting places when neither vocabulary matched. -/
def analyze_intent (user_input : Str) : QueryIntent :=
  let lower := pyLower user_input
  let wants_weather := weather_keywords.any fun k => substrB k lower
  let wants_places := places_keywords.any fun k => substrB k lower
  if wants_weather = false ∧ wants_places = false then
    { weather := wants_weather, places := true }
  else
    { weather := wants_weather, places := wants_places }

/-- Outcome of make_api_request (utils/api_helpers.py): a success
envelope carrying parsed data, or a failure envelope carrying an error
message.  The message is kept optional so that the defensive
response.get defaults of the agents stay observable, although
make_api_request itself always supplies a non-empty message on
failure. -/
inductive ApiOutcome (α : Type) where
  | ok (data : α)
  | fail (error : Option Str)
deriving DecidableEq

/-- The current block of the upstream forecast response, as read by
get_weather; every field may be absent. -/
structure CurrentWeatherData where
  temperature_2m : Option Int
  relative_humidity_2m : Option Int
  precipitation : Option Int
  weather_code : Option Int
deriving DecidableEq

/-- The daily block of the upstream forecast response, as read by
get_weather; every array may be absent. -/
structure DailyData where
  temperature_2m_max : Option (List Int)
  temperature_2m_min : Option (List Int)
  precipitation_probability_max : Option (List Int)
  time : Option (List Str)
deriving DecidableEq

/-- The upstream forecast response body. -/
structure WeatherApiData where
  current : Option CurrentWeatherData
  daily : Option DailyData
  timezone : Option Str
deriving DecidableEq

/-- The empty dictionary default of data.get with key current. -/
def emptyCurrentData : CurrentWeatherData :=
  { temperature_2m := none, relative_humidity_2m := none,
    precipitation := none, weather_code := none }

/-- The empty dictionary default of data.get with key daily. -/
def emptyDailyData : DailyData :=
  { temperature_2m_max := none, temperature_2m_min := none,
    precipitation_probability_max := none, time := none }

/-- The current sub-dictionary of a successful get_weather result. -/
structure CurrentWeather where
  temperature : Option Int
  humidity : Option Int
  precipitation : Option Int
  weather_code : Option Int
deriving DecidableEq

/-- The forecast sub-dictionary of a successful get_weather result. -/
structure Forecast where
  max_temps : List Int
  min_temps : List Int
  precipitation_probability : List Int
  dates : List Str
deriving DecidableEq

/-- The dictionary returned by WeatherAgent.get_weather; absent keys are
modelled as none. -/
structure WeatherResult where
  success : Bool
  current : Option CurrentWeather
  forecast : Option Forecast
  timezone : Option Str
  error : Option Str
deriving DecidableEq

/-- WeatherAgent.get_weather (weather_agent.py lines 15-64), with the
make_api_request call abstracted as the response argument. -/
def get_weather (response : ApiOutcome WeatherApiData) : WeatherResult :=
  match response with
  | .fail e =>
    { success := false, current := none, forecast := none, timezone := none,
      error := some (e.getD ("Failed to fetch weather data".toList)) }
  | .ok data =>
    let current := data.current.getD emptyCurrentData
    let daily := data.daily.getD emptyDailyData
    { success := true,
      current := some
        { temperature := current.temperature_2m,
          humidity := current.relative_humidity_2m,
          precipitation := current.precipitation,
          weather_code := current.weather_code },
      forecast := some
        { max_temps := daily.temperature_2m_max.getD [],
          min_temps := daily.temperature_2m_min.getD [],
          precipitation_probability := daily.precipitation_probability_max.getD [],
          dates := daily.time.getD [] },
      timezone := some (data.timezone.getD ("UTC".toList)),
      error := none }

/-- The weather_codes table of WeatherAgent.get_weather_description
(weather_agent.py lines 79-102), in source order. -/
def weather_codes : List (Int × Str) :=
  [(0, "Clear sky".toList),
   (1, "Mainly clear".toList),
   (2, "Partly cloudy".toList),
   (3, "Overcast".toList),
   (45, "Foggy".toList),
   (48, "Depositing rime fog".toList),
   (51, "Light drizzle".toList),
   (53, "Moderate drizzle".toList),
   (55, "Dense drizzle".toList),
   (61, "Slight rain".toList),
   (63, "Moderate rain".toList),
   (65, "Heavy rain".toList),
   (71, "Slight snow".toList),
   (73, "Moderate snow".toList),
   (75, "Heavy snow".toList),
   (77, "Snow grains".toList),
   (80, "Slight rain showers".toList),
   (81, "Moderate rain showers".toList),
   (82, "Violent rain showers".toList),
   (85, "Slight snow showers".toList),
   (86, "Heavy snow showers".toList),
   (95, "Thunderstorm".toList),
   (96, "Thunderstorm with slight hail".toList),
   (99, "Thunderstorm with heavy hail".toList)]

/-- Dictionary lookup on an association list (Python dict access with
distinct keys). -/
def lookupCode (c : Int) : List (Int × Str) → Option Str
  | [] => none
  | (k, v) :: t => if c = k then some v else lookupCode c t

/-- WeatherAgent.get_weather_description (weather_agent.py lines 66-104):
dictionary .get with default Unknown. -/
def get_weather_description (weather_code : Int) : Str :=
  (lookupCode weather_code weather_codes).getD ("Unknown".toList)

/-- Tag dictionary lookup (tags.get(key) with no default). -/
def tagsGet : List (Str × Str) → Str → Option Str
  | [], _ => none
  | (k, v) :: t, key => if k = key then some v else tagsGet t key

/-- Tag dictionary lookup with a default (tags.get(key, default)). -/
def tagsGetD (tags : List (Str × Str)) (key : Str) (dflt : Str) : Str :=
  (tagsGet tags key).getD dflt

/-- The center sub-dictionary of an Overpass way element. -/
structure OsmCenter where
  lat : Int
  lon : Int
deriving DecidableEq

/-- One element of the Overpass response, as read by
get_tourist_attractions: a tag dictionary, an optional center, and
optional own coordinates.  Coordinate values are opaque to the logic and
modelled as integers. -/
structure OsmElement where
  tags : List (Str × Str)
  center : Option OsmCenter
  lat : Option Int
  lon : Option Int
deriving DecidableEq

/-- The Overpass response body; the elements array may be absent. -/
structure OverpassData where
  elements : Option (List OsmElement)
deriving DecidableEq

/-- Python str.title on ASCII, tracking whether the previous character
was a letter: a letter after a non-letter is uppercased, a letter after
a letter is lowercased, other characters pass through. -/
def pyTitleAux : Bool → Str → Str
  | _, [] => []
  | prevAlpha, c :: t =>
    if isAlphaAZ c then
      (if prevAlpha then pyLowerChar c else pyUpperChar c) :: pyTitleAux true t
    else c :: pyTitleAux false t

/-- Python str.title. -/
def pyTitle (s : Str) : Str := pyTitleAux false s

/-- Python str.replace of underscores by spaces. -/
def underscoreToSpace (s : Str) : Str :=
  s.map fun c => if c = '_' then ' ' else c

/-- The truthiness or-chain tags.get(tourism) or tags.get(historic) or
tags.get(amenity, attraction) of get_tourist_attractions
(places_agent.py lines 131 and 137): an absent key and an empty string
are both falsy. -/
def attractionType (tags : List (Str × Str)) : Str :=
  match tagsGet tags ("tourism".toList) with
  | some s => if s = [] then
      (match tagsGet tags ("historic".toList) with
       | some h => if h = [] then tagsGetD tags ("amenity".toList) ("attraction".toList) else h
       | none => tagsGetD tags ("amenity".toList) ("attraction".toList))
    else s
  | none =>
    match tagsGet tags ("historic".toList) with
    | some h => if h = [] then tagsGetD tags ("amenity".toList) ("attraction".toList) else h
    | none => tagsGetD tags ("amenity".toList) ("attraction".toList)

/-- The truthiness or-chain tags.get(addr:full) or
tags.get(addr:street, empty) (places_agent.py line 141). -/
def addressOf (tags : List (Str × Str)) : Str :=
  match tagsGet tags ("addr:full".toList) with
  | some s => if s = [] then tagsGetD tags ("addr:street".toList) [] else s
  | none => tagsGetD tags ("addr:street".toList) []

/-- One attraction dictionary built by get_tourist_attractions
(places_agent.py lines 133-142). -/
structure Attraction where
  name : Str
  type : Str
  latitude : Option Int
  longitude : Option Int
  address : Str
  website : Str
  description : Str
deriving DecidableEq

/-- The dictionary returned by PlacesAgent.get_tourist_attractions;
absent keys are modelled as none. -/
structure PlacesResult where
  success : Bool
  attractions : Option (List Attraction)
  count : Option Nat
  message : Option Str
  error : Option Str
deriving DecidableEq

/-- The position of an element: the way's center when present, else the
node's own coordinates (places_agent.py lines 124-129). -/
def elementPos (e : OsmElement) : Option Int × Option Int :=
  match e.center with
  | some c => (some c.lat, some c.lon)
  | none => (e.lat, e.lon)

/-- The attraction dictionary built from one kept element
(places_agent.py lines 131-142): the name tag when present, else a
title-cased synthesis from the category. -/
def buildAttraction (e : OsmElement) : Attraction :=
  { name :=
      if tagsGetD e.tags ("name".toList) [] = [] then
        pyTitle (underscoreToSpace (attractionType e.tags))
      else tagsGetD e.tags ("name".toList) [],
    type := attractionType e.tags,
    latitude := (elementPos e).1,
    longitude := (elementPos e).2,
    address := addressOf e.tags,
    website := tagsGetD e.tags ("website".toList) [],
    description := tagsGetD e.tags ("description".toList) [] }

/-- The element loop of get_tourist_attractions (places_agent.py lines
117-148): skip elements with neither a name nor a description tag, and
stop as soon as the accumulated list reaches the limit (the break after
appending). -/
def processElements (limit : Nat) : List OsmElement → List Attraction → List Attraction
  | [], acc => acc
  | e :: rest, acc =>
    if tagsGetD e.tags ("name".toList) [] = [] ∧
       tagsGetD e.tags ("description".toList) [] = [] then
      processElements limit rest acc
    else if limit ≤ (acc ++ [buildAttraction e]).length then acc ++ [buildAttraction e]
    else processElements limit rest (acc ++ [buildAttraction e])

/-- PlacesAgent.get_tourist_attractions (places_agent.py lines 50-154),
with the make_api_request call abstracted as the response argument.  The
radius parameter only affects the upstream query text and is kept for
signature fidelity. -/
def get_tourist_attractions (response : ApiOutcome OverpassData)
    (_radius : Nat := 5000) (limit : Nat := 5) : PlacesResult :=
  match response with
  | .fail e =>
    { success := false, attractions := none, count := none, message := none,
      error := some (e.getD ("Failed to fetch tourist attractions".toList)) }
  | .ok data =>
    if data.elements.getD [] = [] then
      { success := true, attractions := some [], count := none,
        message := some ("No tourist attractions found in this area".toList),
        error := none }
    else
      { success := true,
        attractions :=
          some (processElements limit ((data.elements.getD []).take (limit * 2)) []),
        count :=
          some (processElements limit ((data.elements.getD []).take (limit * 2)) []).length,
        message := none, error := none }

/-- Coordinates as returned by PlacesAgent.get_coordinates; the float
values are opaque to the orchestration logic and modelled as
integers. -/
structure Coordinates where
  lat : Int
  lon : Int
deriving DecidableEq

/-- The dictionary returned by TourismAgent.process_query. -/
structure QueryResult where
  success : Bool
  location : Option Str
  weather : Option WeatherResult
  places : Option PlacesResult
  error : Option Str
deriving DecidableEq

/-- The weather block of process_query (parent_agent.py lines 147-152):
returns the weather field and the error field after step 4. -/
def weatherStep (wants : Bool) (wd : WeatherResult) : Option WeatherResult × Option Str :=
  if wants then
    if wd.success then (some wd, none)
    else (none, some (wd.error.getD ("Failed to fetch weather data".toList)))
  else (none, none)

/-- The places block of process_query (parent_agent.py lines 155-163):
on failure, append to a truthy existing error (Python truthiness: a None
or empty error is overwritten instead). -/
def placesStep (wants : Bool) (pd : PlacesResult) (err : Option Str) :
    Option PlacesResult × Option Str :=
  if wants then
    if pd.success then (some pd, err)
    else
      let pmsg := pd.error.getD ("Failed to fetch places data".toList)
      match err with
      | some e => if e = [] then (none, some pmsg)
                  else (none, some (e ++ " Also: ".toList ++ pmsg))
      | none => (none, some pmsg)
  else (none, err)

/-- TourismAgent.process_query (parent_agent.py lines 101-165).  The
three child-agent calls are abstracted as oracle parameters standing for
PlacesAgent.get_coordinates, WeatherAgent.get_weather and
PlacesAgent.get_tourist_attractions at the resolved coordinates. -/
def process_query (get_coordinates : Str → Option Coordinates)
    (weatherAt : Coordinates → WeatherResult)
    (attractionsAt : Coordinates → PlacesResult)
    (user_input : Str) : QueryResult :=
  match extract_location user_input with
  | none =>
    { success := false,
      error := some ("Could not identify a location in your query. Please mention a place name.".toList),
      location := none, weather := none, places := none }
  | some location =>
    let intent := analyze_intent user_input
    match get_coordinates location with
    | none =>
      { success := false,
        error := some ("I'm sorry, I don't know this place exists: ".toList ++ location),
        location := some location, weather := none, places := none }
    | some coords =>
      let wpair := weatherStep intent.weather (weatherAt coords)
      let ppair := placesStep intent.places (attractionsAt coords) wpair.2
      { success := true, location := some location,
        weather := wpair.1, places := ppair.1, error := ppair.2 }

/-- A list-any is false when the predicate is false on every member. -/
theorem list_any_false {α : Type} (p : α → Bool) (l : List α)
    (h : ∀ x ∈ l, p x = false) : l.any p = false := by
  induction l with
  | nil => rfl
  | cons a t ih =>
    simp only [List.any_cons, h a (List.mem_cons_self a t), Bool.false_or]
    exact ih fun x hx => h x (List.mem_cons_of_mem a hx)

/-- C4: if no weather keyword and no places keyword occurs in the
lowercased input, analyze_intent returns weather false and places true;
and on every input at least one of the two flags is true. -/
theorem analyze_intent_default_places (user_input : Str) :
    ((∀ kw ∈ weather_keywords, substrB kw (pyLower user_input) = false) ∧
     (∀ kw ∈ places_keywords, substrB kw (pyLower user_input) = false) →
      (analyze_intent user_input).weather = false ∧
      (analyze_intent user_input).places = true) ∧
    ((analyze_intent user_input).weather = true ∨
      (analyze_intent user_input).places = true) := by
  constructor
  · rintro ⟨h1, h2⟩
    have hw := list_any_false (fun k => substrB k (pyLower user_input)) weather_keywords h1
    have hp := list_any_false (fun k => substrB k (pyLower user_input)) places_keywords h2
    simp [analyze_intent, hw, hp]
  · cases hw : weather_keywords.any fun k => substrB k (pyLower user_input) with
    | true => left; simp [analyze_intent, hw]
    | false =>
      right
      cases hp : places_keywords.any fun k => substrB k (pyLower user_input) with
      | true => simp [analyze_intent, hw, hp]
      | false => simp [analyze_intent, hw, hp]

/-- Witness for C4 at a concrete keyword-free input. -/
theorem analyze_intent_default_places_witness :
    (analyze_intent ("hello friend".toList)).weather = false ∧
    (analyze_intent ("hello friend".toList)).places = true :=
  (analyze_intent_default_places ("hello friend".toList)).1 (by decide)

/-- C2 (failing input): on the exact spec example the code does not
return Tokyo.  The terminator alternation of the source patterns has no
case for a question mark and the group class cannot consume one, so the
second pattern fails on this input, and the fallback scan then accepts
the token starting the sentence because the stopword list contains the
bare word what but not its contraction. -/
theorem extract_location_tokyo_question :
    extract_location ("What's the weather in Tokyo?".toList) =
      some ("What's".toList) := by decide

/-- The same input without the trailing question mark does yield Tokyo,
via the second pattern with the end anchor as terminator; this isolates
the question mark as the failure trigger for C2. -/
theorem extract_location_tokyo_no_question :
    extract_location ("What's the weather in Tokyo".toList) =
      some ("Tokyo".toList) := by decide

/-- C8 (counterexample): the weather-code table has 24 entries with
pairwise-distinct codes, each mapped to a description different from
Unknown, so the table maps exactly 24 codes and not 23 as claimed. -/
theorem get_weather_description_table_cex :
    weather_codes.length ≠ 23 ∧ weather_codes.length = 24 ∧
    (weather_codes.map Prod.fst).Nodup ∧
    ∀ c ∈ weather_codes.map Prod.fst,
      get_weather_description c ≠ ("Unknown".toList) := by decide

/-- Dictionary lookup misses every key not in the key list. -/
theorem lookupCode_eq_none (c : Int) (l : List (Int × Str))
    (h : c ∉ l.map Prod.fst) : lookupCode c l = none := by
  induction l with
  | nil => rfl
  | cons kv t ih =>
    obtain ⟨k, v⟩ := kv
    simp only [List.map_cons, List.mem_cons, not_or] at h
    simp only [lookupCode, if_neg h.1]
    exact ih h.2

/-- C8 (amended): get_weather_description is a pure lookup over a fixed
table of exactly 24 distinct WMO codes, each mapped to a description
other than Unknown, and returns Unknown for every integer code outside
the table. -/
theorem get_weather_description_amended (c : Int) :
    weather_codes.length = 24 ∧ (weather_codes.map Prod.fst).Nodup ∧
    (c ∈ weather_codes.map Prod.fst →
      get_weather_description c ≠ ("Unknown".toList)) ∧
    (c ∉ weather_codes.map Prod.fst →
      get_weather_description c = ("Unknown".toList)) := by
  refine ⟨by decide, by decide, ?_, ?_⟩
  · intro hc
    fin_cases hc <;> decide
  · intro hc
    simp [get_weather_description, lookupCode_eq_none c weather_codes hc]

/-- Witness for C8 (amended) at an unmapped and a mapped code. -/
theorem get_weather_description_amended_witness :
    get_weather_description 7 = ("Unknown".toList) ∧
    get_weather_description 95 ≠ ("Unknown".toList) :=
  ⟨(get_weather_description_amended 7).2.2.2 (by decide),
   (get_weather_description_amended 95).2.2.1 (by decide)⟩

/-- C7 (counterexample): get_weather copies the upstream daily arrays
without truncating or aligning them, so an upstream response whose
arrays have lengths 2, 0, 0 and 1 yields a successful snapshot whose
four forecast arrays have exactly those unequal lengths, and none has 3
entries. -/
theorem get_weather_forecast_cex :
    (get_weather (.ok
      { current := none,
        daily := some
          { temperature_2m_max := some [20, 21],
            temperature_2m_min := none,
            precipitation_probability_max := none,
            time := some [("x".toList)] },
        timezone := none })).success = true ∧
    ((get_weather (.ok
      { current := none,
        daily := some
          { temperature_2m_max := some [20, 21],
            temperature_2m_min := none,
            precipitation_probability_max := none,
            time := some [("x".toList)] },
        timezone := none })).forecast.map fun f =>
      (f.max_temps.length, f.min_temps.length,
       f.precipitation_probability.length, f.dates.length)) =
      some (2, 0, 0, 1) := by decide

/-- C7 (amended): a successful get_weather copies the four upstream
daily arrays unchanged (with an empty-array default for a missing key);
in particular the four forecast arrays have equal length whenever the
upstream arrays do, but the code itself performs no truncation or
alignment to 3 entries (the 3-day horizon is only requested from the
upstream service). -/
theorem get_weather_forecast_amended (d : WeatherApiData) :
    (get_weather (.ok d)).success = true ∧
    (get_weather (.ok d)).forecast = some
      { max_temps := (d.daily.getD emptyDailyData).temperature_2m_max.getD [],
        min_temps := (d.daily.getD emptyDailyData).temperature_2m_min.getD [],
        precipitation_probability :=
          (d.daily.getD emptyDailyData).precipitation_probability_max.getD [],
        dates := (d.daily.getD emptyDailyData).time.getD [] } ∧
    (((d.daily.getD emptyDailyData).temperature_2m_max.getD []).length =
        ((d.daily.getD emptyDailyData).temperature_2m_min.getD []).length ∧
     ((d.daily.getD emptyDailyData).temperature_2m_min.getD []).length =
        ((d.daily.getD emptyDailyData).precipitation_probability_max.getD []).length ∧
     ((d.daily.getD emptyDailyData).precipitation_probability_max.getD []).length =
        ((d.daily.getD emptyDailyData).time.getD []).length →
      ∀ f, (get_weather (.ok d)).forecast = some f →
        f.max_temps.length = f.min_temps.length ∧
        f.min_temps.length = f.precipitation_probability.length ∧
        f.precipitation_probability.length = f.dates.length) := by
  refine ⟨rfl, rfl, ?_⟩
  rintro ⟨h1, h2, h3⟩ f hf
  have hx : some
      ({ max_temps := (d.daily.getD emptyDailyData).temperature_2m_max.getD [],
         min_temps := (d.daily.getD emptyDailyData).temperature_2m_min.getD [],
         precipitation_probability :=
           (d.daily.getD emptyDailyData).precipitation_probability_max.getD [],
         dates := (d.daily.getD emptyDailyData).time.getD [] } : Forecast) = some f := hf
  injection hx with hx
  subst hx
  exact ⟨h1, h2, h3⟩

/-- Witness for C7 (amended) at an upstream response with three aligned
forecast entries. -/
theorem get_weather_forecast_amended_witness :
    (get_weather (.ok
      { current := none,
        daily := some
          { temperature_2m_max := some [20, 21, 22],
            temperature_2m_min := some [10, 11, 12],
            precipitation_probability_max := some [0, 5, 50],
            time := some [("a".toList), ("b".toList), ("c".toList)] },
        timezone := none })).forecast.elim False (fun f =>
      f.max_temps.length = f.min_temps.length ∧
      f.min_temps.length = f.precipitation_probability.length ∧
      f.precipitation_probability.length = f.dates.length) :=
  (get_weather_forecast_amended _).2.2 (by decide) _ rfl

/-- Mapping the characters of a non-empty text preserves
non-emptiness. -/
theorem underscoreToSpace_ne_nil (s : Str) (h : s ≠ []) :
    underscoreToSpace s ≠ [] := by
  cases s with
  | nil => exact absurd rfl h
  | cons c t => simp [underscoreToSpace]

/-- Python str.title preserves the length of the text. -/
theorem pyTitleAux_length (b : Bool) (s : Str) :
    (pyTitleAux b s).length = s.length := by
  induction s generalizing b with
  | nil => rfl
  | cons c t ih =>
    simp only [pyTitleAux]
    split <;> simp [ih]

/-- Python str.title of a non-empty text is non-empty. -/
theorem pyTitle_ne_nil (s : Str) (h : s ≠ []) : pyTitle s ≠ [] := by
  intro hc
  apply h
  have hl := pyTitleAux_length false s
  rw [show pyTitle s = pyTitleAux false s from rfl] at hc
  rw [hc] at hl
  exact List.length_eq_zero.mp hl.symm

/-- The amenity .get with default attraction is non-empty provided an
amenity tag, when present, is not the empty string. -/
theorem amenity_default_ne_nil (tags : List (Str × Str))
    (hAm : tagsGet tags ("amenity".toList) ≠ some []) :
    tagsGetD tags ("amenity".toList) ("attraction".toList) ≠ [] := by
  unfold tagsGetD
  cases h : tagsGet tags ("amenity".toList) with
  | none => simp
  | some v =>
    simp only [Option.getD_some]
    intro hv
    exact hAm (by rw [h, hv])

/-- The category or-chain is non-empty provided an amenity tag, when
present, is not the empty string: a truthy tourism or historic value is
itself non-empty, and the final amenity .get falls back to the literal
attraction. -/
theorem attractionType_ne_nil (tags : List (Str × Str))
    (hAm : tagsGet tags ("amenity".toList) ≠ some []) :
    attractionType tags ≠ [] := by
  unfold attractionType
  cases h1 : tagsGet tags ("tourism".toList) with
  | some s =>
    by_cases hs : s = []
    · simp only [hs, if_pos rfl]
      cases h2 : tagsGet tags ("historic".toList) with
      | some h =>
        by_cases hh : h = []
        · simp only [hh, if_pos rfl]
          exact amenity_default_ne_nil tags hAm
        · simp only [if_neg hh]
          exact hh
      | none => exact amenity_default_ne_nil tags hAm
    · simp only [if_neg hs]
      exact hs
  | none =>
    cases h2 : tagsGet tags ("historic".toList) with
    | some h =>
      by_cases hh : h = []
      · simp only [hh, if_pos rfl]
        exact amenity_default_ne_nil tags hAm
      · simp only [if_neg hh]
        exact hh
    | none => exact amenity_default_ne_nil tags hAm

/-- The attraction built from a kept element has a non-empty name or a
non-empty description. -/
theorem buildAttraction_name_or_desc (e : OsmElement)
    (h : ¬(tagsGetD e.tags ("name".toList) [] = [] ∧
           tagsGetD e.tags ("description".toList) [] = [])) :
    (buildAttraction e).name ≠ [] ∨ (buildAttraction e).description ≠ [] := by
  by_cases hn : tagsGetD e.tags ("name".toList) [] = []
  · right
    simp only [buildAttraction]
    exact fun hd => h ⟨hn, hd⟩
  · left
    simp only [buildAttraction, if_neg hn]
    exact hn

/-- Any built attraction has a non-empty name provided an amenity tag,
when present, is not the empty string. -/
theorem buildAttraction_name_ne (e : OsmElement)
    (hAm : tagsGet e.tags ("amenity".toList) ≠ some []) :
    (buildAttraction e).name ≠ [] := by
  by_cases hn : tagsGetD e.tags ("name".toList) [] = []
  · simp only [buildAttraction, if_pos hn]
    exact pyTitle_ne_nil _ (underscoreToSpace_ne_nil _ (attractionType_ne_nil e.tags hAm))
  · simp only [buildAttraction, if_neg hn]
    exact hn

/-- Every attraction produced by the element loop either was already in
the accumulator or is built from a kept element of the input list. -/
theorem processElements_mem (limit : Nat) :
    ∀ (es : List OsmElement) (acc : List Attraction) (a : Attraction),
    a ∈ processElements limit es acc →
    a ∈ acc ∨ ∃ e ∈ es,
      ¬(tagsGetD e.tags ("name".toList) [] = [] ∧
        tagsGetD e.tags ("description".toList) [] = []) ∧
      a = buildAttraction e := by
  intro es
  induction es with
  | nil =>
    intro acc a ha
    left
    simpa [processElements] using ha
  | cons e rest ih =>
    intro acc a ha
    by_cases hc : tagsGetD e.tags ("name".toList) [] = [] ∧
        tagsGetD e.tags ("description".toList) [] = []
    · rw [processElements, if_pos hc] at ha
      rcases ih acc a ha with h | ⟨e', he', hp⟩
      · exact Or.inl h
      · exact Or.inr ⟨e', List.mem_cons_of_mem e he', hp⟩
    · rw [processElements, if_neg hc] at ha
      by_cases hl : limit ≤ (acc ++ [buildAttraction e]).length
      · rw [if_pos hl] at ha
        rcases List.mem_append.1 ha with h | h
        · exact Or.inl h
        · exact Or.inr ⟨e, List.mem_cons_self e rest, hc, List.mem_singleton.1 h⟩
      · rw [if_neg hl] at ha
        rcases ih (acc ++ [buildAttraction e]) a ha with h | ⟨e', he', hp⟩
        · rcases List.mem_append.1 h with h' | h'
          · exact Or.inl h'
          · exact Or.inr ⟨e, List.mem_cons_self e rest, hc, List.mem_singleton.1 h'⟩
        · exact Or.inr ⟨e', List.mem_cons_of_mem e he', hp⟩

/-- C6 (counterexample): an upstream element whose tags are an
empty-valued amenity tag and a non-empty description is kept (the
description is non-empty), yet its synthesized name is the title-casing
of the empty category chain, which is empty; so a kept record can have
an empty name, refuting the claim as stated. -/
theorem get_tourist_attractions_empty_name_cex :
    ((get_tourist_attractions (.ok
      { elements := some
          [{ tags := [(("amenity".toList), []),
                      (("description".toList), ("a shrine".toList))],
             center := none, lat := none, lon := none }] })).attractions.map
      fun l => l.map fun a => (a.name, a.description)) =
      some [([], ("a shrine".toList))] := by decide

/-- C6 (amended): every attraction in the output of
get_tourist_attractions has a non-empty name or a non-empty description
(raw records with neither are discarded), and under the additional
hypothesis that no element carries an amenity tag whose value is the
empty string - true of the hole the counterexample exploits - every kept
record has a non-empty name, synthesized from its category when the
record lacks a name tag. -/
theorem get_tourist_attractions_names (d : OverpassData) (radius limit : Nat)
    (l : List Attraction) (a : Attraction)
    (hl : (get_tourist_attractions (.ok d) radius limit).attractions = some l)
    (ha : a ∈ l) :
    (a.name ≠ [] ∨ a.description ≠ []) ∧
    ((∀ e ∈ d.elements.getD [], tagsGet e.tags ("amenity".toList) ≠ some []) →
      a.name ≠ []) := by
  by_cases he : d.elements.getD [] = []
  · rw [show get_tourist_attractions (.ok d) radius limit =
      { success := true, attractions := some [], count := none,
        message := some ("No tourist attractions found in this area".toList),
        error := none } from by rw [get_tourist_attractions, if_pos he]] at hl
    simp only at hl
    injection hl with hl
    subst hl
    exact absurd ha (List.not_mem_nil a)
  · rw [show get_tourist_attractions (.ok d) radius limit =
      { success := true,
        attractions :=
          some (processElements limit ((d.elements.getD []).take (limit * 2)) []),
        count :=
          some (processElements limit ((d.elements.getD []).take (limit * 2)) []).length,
        message := none, error := none } from by
        rw [get_tourist_attractions, if_neg he]] at hl
    simp only at hl
    injection hl with hl
    subst hl
    rcases processElements_mem limit _ [] a ha with h | ⟨e, hee, hkept, rfl⟩
    · exact absurd h (List.not_mem_nil a)
    · constructor
      · exact buildAttraction_name_or_desc e hkept
      · intro hAm
        exact buildAttraction_name_ne e (hAm e (List.mem_of_mem_take hee))

/-- Witness for C6 (amended) at a one-element upstream response with a
name tag. -/
theorem get_tourist_attractions_names_witness :
    (buildAttraction
      { tags := [(("name".toList), ("Old Temple".toList))],
        center := none, lat := none, lon := none }).name ≠ [] :=
  (get_tourist_attractions_names
    { elements := some
        [{ tags := [(("name".toList), ("Old Temple".toList))],
           center := none, lat := none, lon := none }] }
    5000 5 _ _ rfl (List.mem_singleton.2 rfl)).2 (by decide)

/-- The element loop never accumulates past the limit when it starts
strictly below it: each iteration appends at most one record and stops
as soon as the limit is reached. -/
theorem processElements_length (limit : Nat) :
    ∀ (es : List OsmElement) (acc : List Attraction),
    acc.length < limit → (processElements limit es acc).length ≤ limit := by
  intro es
  induction es with
  | nil =>
    intro acc h
    simpa [processElements] using Nat.le_of_lt h
  | cons e rest ih =>
    intro acc h
    rw [processElements]
    split
    · exact ih acc h
    · split
      · simpa [List.length_append] using h
      · rename_i hl
        exact ih _ (Nat.lt_of_not_le hl)

/-- C10: on a non-empty upstream elements array, the successful result
of get_tourist_attractions has its count field equal to the length of
the attractions list, and that length never exceeds the limit
parameter. -/
theorem get_tourist_attractions_count (d : OverpassData) (radius limit : Nat)
    (hne : d.elements.getD [] ≠ []) :
    ∃ l, (get_tourist_attractions (.ok d) radius limit).success = true ∧
      (get_tourist_attractions (.ok d) radius limit).attractions = some l ∧
      (get_tourist_attractions (.ok d) radius limit).count = some l.length ∧
      l.length ≤ limit := by
  rw [show get_tourist_attractions (.ok d) radius limit =
      { success := true,
        attractions :=
          some (processElements limit ((d.elements.getD []).take (limit * 2)) []),
        count :=
          some (processElements limit ((d.elements.getD []).take (limit * 2)) []).length,
        message := none, error := none } from by
      rw [get_tourist_attractions, if_neg hne]]
  refine ⟨_, rfl, rfl, rfl, ?_⟩
  rcases Nat.eq_zero_or_pos limit with h0 | hpos
  · subst h0
    simp [processElements]
  · exact processElements_length limit _ [] (by simpa using hpos)

/-- Witness for C10 at a one-element upstream response. -/
theorem get_tourist_attractions_count_witness :
    (get_tourist_attractions (.ok
      { elements := some
          [{ tags := [(("name".toList), ("Old Temple".toList))],
             center := none, lat := none, lon := none }] }) 5000 5).success = true := by
  obtain ⟨l, h1, h2, h3, h4⟩ := get_tourist_attractions_count
    { elements := some
        [{ tags := [(("name".toList), ("Old Temple".toList))],
           center := none, lat := none, lon := none }] }
    5000 5 (by decide)
  exact h1

/-- C3: when a location is extracted but the resolver returns none,
process_query fails with the extracted location preserved and an error
message containing the location name (it is the fixed apology prefix
followed by the location). -/
theorem process_query_unknown_place (gc : Str → Option Coordinates)
    (gw : Coordinates → WeatherResult) (ga : Coordinates → PlacesResult)
    (user_input loc : Str)
    (hloc : extract_location user_input = some loc)
    (hnone : gc loc = none) :
    (process_query gc gw ga user_input).success = false ∧
    (process_query gc gw ga user_input).location = some loc ∧
    ∃ e pre suf, (process_query gc gw ga user_input).error = some e ∧
      e = pre ++ loc ++ suf := by
  have hpq : process_query gc gw ga user_input =
      { success := false,
        error := some ("I'm sorry, I don't know this place exists: ".toList ++ loc),
        location := some loc, weather := none, places := none } := by
    simp only [process_query, hloc, hnone]
  rw [hpq]
  exact ⟨rfl, rfl, ("I'm sorry, I don't know this place exists: ".toList ++ loc),
    ("I'm sorry, I don't know this place exists: ".toList), [], rfl,
    (List.append_nil _).symm⟩

/-- Witness for C3 on the spec example with a resolver that returns
none. -/
theorem process_query_unknown_place_witness :
    (process_query (fun _ => none)
      (fun _ => get_weather (.fail none))
      (fun _ => get_tourist_attractions (.fail none))
      ("trip to Nowhereistan".toList)).success = false ∧
    (process_query (fun _ => none)
      (fun _ => get_weather (.fail none))
      (fun _ => get_tourist_attractions (.fail none))
      ("trip to Nowhereistan".toList)).location = some ("Nowhereistan".toList) := by
  obtain ⟨h1, h2, _⟩ := process_query_unknown_place (fun _ => none)
    (fun _ => get_weather (.fail none))
    (fun _ => get_tourist_attractions (.fail none))
    ("trip to Nowhereistan".toList) ("Nowhereistan".toList) (by decide) rfl
  exact ⟨h1, h2⟩

/-- C9: a failed process_query result never carries partial data: both
the weather and the places field are none whenever success is false. -/
theorem process_query_failure_no_partials (gc : Str → Option Coordinates)
    (gw : Coordinates → WeatherResult) (ga : Coordinates → PlacesResult)
    (user_input : Str)
    (h : (process_query gc gw ga user_input).success = false) :
    (process_query gc gw ga user_input).weather = none ∧
    (process_query gc gw ga user_input).places = none := by
  cases hloc : extract_location user_input with
  | none => simp [process_query, hloc]
  | some loc =>
    cases hc : gc loc with
    | none => simp [process_query, hloc, hc]
    | some coords =>
      exfalso
      simp [process_query, hloc, hc] at h

/-- Witness for C9 at an input too short to contain a location. -/
theorem process_query_failure_no_partials_witness :
    (process_query (fun _ => none)
      (fun _ => get_weather (.fail none))
      (fun _ => get_tourist_attractions (.fail none))
      ("hi".toList)).weather = none ∧
    (process_query (fun _ => none)
      (fun _ => get_weather (.fail none))
      (fun _ => get_tourist_attractions (.fail none))
      ("hi".toList)).places = none :=
  process_query_failure_no_partials (fun _ => none)
    (fun _ => get_weather (.fail none))
    (fun _ => get_tourist_attractions (.fail none))
    ("hi".toList) (by decide)

/-- C1: once a location is extracted and resolved, process_query always
reports success true, and the advisory error field behaves as claimed:
a weather failure claims the error slot first; a subsequent places
failure appends with the Also separator instead of overwriting (the
non-emptiness hypothesis on the weather message reflects both Python
truthiness, under which an empty error string would be overwritten, and
the fact that get_weather failure messages are never empty); and when
only the places fetch fails while weather succeeds, the result carries
the weather snapshot, a none places field, and exactly the places
failure message. -/
theorem process_query_partial_success (gc : Str → Option Coordinates)
    (gw : Coordinates → WeatherResult) (ga : Coordinates → PlacesResult)
    (user_input loc : Str) (coords : Coordinates)
    (hloc : extract_location user_input = some loc)
    (hcoords : gc loc = some coords) :
    (process_query gc gw ga user_input).success = true ∧
    ((analyze_intent user_input).weather = true → (gw coords).success = false →
      ((analyze_intent user_input).places = false ∨ (ga coords).success = true) →
      (process_query gc gw ga user_input).error =
        some ((gw coords).error.getD ("Failed to fetch weather data".toList))) ∧
    ((analyze_intent user_input).weather = true →
      (analyze_intent user_input).places = true →
      (gw coords).success = false → (ga coords).success = false →
      (gw coords).error.getD ("Failed to fetch weather data".toList) ≠ [] →
      (process_query gc gw ga user_input).error =
        some ((gw coords).error.getD ("Failed to fetch weather data".toList) ++
          " Also: ".toList ++
          (ga coords).error.getD ("Failed to fetch places data".toList))) ∧
    ((analyze_intent user_input).weather = true →
      (analyze_intent user_input).places = true →
      (gw coords).success = true → (ga coords).success = false →
      (process_query gc gw ga user_input).weather = some (gw coords) ∧
      (process_query gc gw ga user_input).places = none ∧
      (process_query gc gw ga user_input).error =
        some ((ga coords).error.getD ("Failed to fetch places data".toList))) := by
  refine ⟨?_, ?_, ?_, ?_⟩
  · simp only [process_query, hloc, hcoords]
  · intro hw hws hpc
    by_cases hp : (analyze_intent user_input).places = true
    · rcases hpc with hp' | hps
      · rw [hp] at hp'
        exact absurd hp' (by simp)
      · simp [process_query, hloc, hcoords, weatherStep, placesStep, hw, hws, hp, hps]
    · have hp' : (analyze_intent user_input).places = false := by
        revert hp
        cases (analyze_intent user_input).places <;> simp
      simp [process_query, hloc, hcoords, weatherStep, placesStep, hw, hws, hp']
  · intro hw hp hws hps hne
    simp [process_query, hloc, hcoords, weatherStep, placesStep, hw, hp, hws, hps]
    split
    · rename_i hcond
      exact absurd hcond hne
    · rfl
  · intro hw hp hws hps
    simp [process_query, hloc, hcoords, weatherStep, placesStep, hw, hp, hws, hps]

/-- Witness for C1 on a query wanting both weather and places, with a
succeeding weather fetch and a failing places fetch. -/
theorem process_query_partial_success_witness :
    (process_query (fun _ => some { lat := 0, lon := 0 })
      (fun _ => get_weather (.ok { current := none, daily := none, timezone := none }))
      (fun _ => get_tourist_attractions (.fail (some ("Overpass down".toList))))
      ("weather and attractions in Paris".toList)).success = true ∧
    (process_query (fun _ => some { lat := 0, lon := 0 })
      (fun _ => get_weather (.ok { current := none, daily := none, timezone := none }))
      (fun _ => get_tourist_attractions (.fail (some ("Overpass down".toList))))
      ("weather and attractions in Paris".toList)).weather =
      some (get_weather (.ok { current := none, daily := none, timezone := none })) ∧
    (process_query (fun _ => some { lat := 0, lon := 0 })
      (fun _ => get_weather (.ok { current := none, daily := none, timezone := none }))
      (fun _ => get_tourist_attractions (.fail (some ("Overpass down".toList))))
      ("weather and attractions in Paris".toList)).places = none ∧
    (process_query (fun _ => some { lat := 0, lon := 0 })
      (fun _ => get_weather (.ok { current := none, daily := none, timezone := none }))
      (fun _ => get_tourist_attractions (.fail (some ("Overpass down".toList))))
      ("weather and attractions in Paris".toList)).error =
      some ("Overpass down".toList) := by
  obtain ⟨h1, _, _, h4⟩ := process_query_partial_success
    (fun _ => some { lat := 0, lon := 0 })
    (fun _ => get_weather (.ok { current := none, daily := none, timezone := none }))
    (fun _ => get_tourist_attractions (.fail (some ("Overpass down".toList))))
    ("weather and attractions in Paris".toList) ("Paris".toList)
    { lat := 0, lon := 0 } (by decide) rfl
  obtain ⟨w1, w2, w3⟩ := h4 (by decide) (by decide) rfl rfl
  exact ⟨h1, w1, w2, w3⟩

/-- An uppercase letter is not whitespace. -/
theorem isUpperAZ_not_isWs (c : Char) (h : isUpperAZ c = true) : isWs c = false := by
  simp only [isUpperAZ, Bool.and_eq_true, decide_eq_true_eq] at h
  simp only [isWs, Bool.or_eq_false_iff, beq_eq_false_iff_ne, ne_eq,
    Bool.and_eq_false_iff, decide_eq_false_iff_not, not_le]
  omega

/-- Successful literal matching decomposes the text. -/
theorem dropLit_eq (lit : Str) :
    ∀ s r, dropLit lit s = some r → s = lit ++ r := by
  induction lit with
  | nil =>
    intro s r h
    simp only [dropLit, Option.some.injEq] at h
    simp [h]
  | cons c lt ih =>
    intro s r h
    cases s with
    | nil => exact absurd h (by simp [dropLit])
    | cons d t =>
      simp only [dropLit] at h
      split at h
      · rename_i hcd
        rw [List.cons_append, ← hcd, ih t r h]
      · exact absurd h (by simp)

/-- A successful \s+ step decomposes the text as a prefix, then a
whitespace character, then the rest. -/
theorem wsPlus_decomp (s r : Str) (h : wsPlus s = some r) :
    ∃ pre w, s = pre ++ w :: r ∧ isWs w = true := by
  cases s with
  | nil => exact absurd h (by simp [wsPlus])
  | cons c t =>
    simp only [wsPlus] at h
    split at h
    · rename_i hws
      injection h with h
      subst h
      rcases List.eq_nil_or_concat (t.takeWhile isWs) with htk | ⟨tk', w', htk⟩
      · refine ⟨[], c, ?_, hws⟩
        have hsplit := List.takeWhile_append_dropWhile (p := isWs) (l := t)
        rw [htk, List.nil_append] at hsplit
        rw [hsplit]
        rfl
      · refine ⟨c :: tk', w', ?_, ?_⟩
        · have hsplit := List.takeWhile_append_dropWhile (p := isWs) (l := t)
          rw [htk] at hsplit
          conv_lhs => rw [← hsplit]
          simp [List.concat_eq_append]
        · exact List.mem_takeWhile_imp (htk ▸ (by simp [List.concat_eq_append] :
            w' ∈ (tk'.concat w')))
    · exact absurd h (by simp)

/-- A successful single-alternative match exhibits a whitespace
character immediately followed by an uppercase letter somewhere in the
text. -/
theorem tryLit_decomp (lit s g : Str) (h : tryLit lit s = some g) :
    ∃ xs w u ys, s = xs ++ w :: u :: ys ∧ isWs w = true ∧ isUpperAZ u = true := by
  unfold tryLit at h
  split at h
  · exact absurd h (by simp)
  · rename_i r hd
    split at h
    · exact absurd h (by simp)
    · exact absurd h (by simp)
    · rename_i u r3 hw
      by_cases hu : isUpperAZ u = true
      · obtain ⟨pre, w, hr, hws⟩ := wsPlus_decomp r (u :: r3) hw
        refine ⟨lit ++ pre, w, u, r3, ?_, hws, hu⟩
        rw [dropLit_eq lit s r hd, hr]
        simp
      · rw [if_neg hu] at h
        exact absurd h (by simp)

/-- A successful whole-pattern match exhibits a whitespace character
immediately followed by an uppercase letter somewhere in the text. -/
theorem tryPatternAt_decomp (lits : List Str) :
    ∀ s g, tryPatternAt lits s = some g →
    ∃ xs w u ys, s = xs ++ w :: u :: ys ∧ isWs w = true ∧ isUpperAZ u = true := by
  induction lits with
  | nil => intro s g h; exact absurd h (by simp [tryPatternAt])
  | cons lit rest ih =>
    intro s g h
    simp only [tryPatternAt] at h
    cases ht : tryLit lit s with
    | some g' => exact tryLit_decomp lit s g' ht
    | none =>
      rw [ht] at h
      exact ih s g h

/-- re.search fails on a text in which no uppercase letter immediately
follows a whitespace character. -/
theorem searchPat_none (lits : List Str) :
    ∀ s, (∀ xs w u ys, s = xs ++ w :: u :: ys → isWs w = true → isUpperAZ u = false) →
    searchPat lits s = none := by
  intro s
  induction s with
  | nil => intro _; rfl
  | cons c t ih =>
    intro h
    cases htp : tryPatternAt lits (c :: t) with
    | some g =>
      obtain ⟨xs, w, u, ys, hs, hws, hu⟩ := tryPatternAt_decomp lits (c :: t) g htp
      have := h xs w u ys hs hws
      rw [this] at hu
      exact absurd hu (by simp)
    | none =>
      rw [searchPat, htp]
      exact ih fun xs w u ys ht hw =>
        h (c :: xs) w u ys (by rw [List.cons_append, ← ht]) hw

/-- When the accumulator is non-empty, the first token produced by the
split scan extends the reversed accumulator. -/
theorem splitAux_first :
    ∀ (ys acc : Str), acc ≠ [] → ∃ l tl, splitAux ys acc = (acc.reverse ++ l) :: tl := by
  intro ys
  induction ys with
  | nil =>
    intro acc h
    have hne : acc.isEmpty = false := by
      cases acc
      · exact absurd rfl h
      · rfl
    exact ⟨[], [], by simp [splitAux, hne]⟩
  | cons c t ih =>
    intro acc h
    by_cases hws : isWs c = true
    · have hne : acc.isEmpty = false := by
        cases acc
        · exact absurd rfl h
        · rfl
      exact ⟨[], splitAux t [], by simp [splitAux, hws, hne]⟩
    · obtain ⟨l, tl, hh⟩ := ih (c :: acc) (by simp)
      refine ⟨c :: l, tl, ?_⟩
      rw [show splitAux (c :: t) acc = splitAux t (c :: acc) from by
        simp [splitAux, hws], hh]
      simp

/-- Every token produced by the split scan on a suffix that begins right
after a whitespace character is also produced on the whole text,
whatever was already accumulated. -/
theorem splitAux_mem :
    ∀ (xs acc : Str) (w u : Char) (ys : Str), isWs w = true →
    ∀ tok ∈ splitAux (u :: ys) [], tok ∈ splitAux (xs ++ w :: u :: ys) acc := by
  intro xs
  induction xs with
  | nil =>
    intro acc w u ys hw tok htok
    rw [List.nil_append]
    by_cases hacc : acc.isEmpty = true
    · simpa [splitAux, hw, hacc] using htok
    · have : acc.isEmpty = false := by
        revert hacc
        cases acc.isEmpty <;> simp
      simp only [splitAux, hw, if_pos rfl, this, Bool.false_eq_true, if_false]
      exact List.mem_cons_of_mem _ htok
  | cons c xs' ih =>
    intro acc w u ys hw tok htok
    rw [List.cons_append]
    by_cases hc : isWs c = true
    · by_cases hacc : acc.isEmpty = true
      · simp only [splitAux, hc, if_pos rfl, hacc]
        exact ih [] w u ys hw tok htok
      · have : acc.isEmpty = false := by
          revert hacc
          cases acc.isEmpty <;> simp
        simp only [splitAux, hc, if_pos rfl, this, Bool.false_eq_true, if_false]
        exact List.mem_cons_of_mem _ (ih [] w u ys hw tok htok)
    · have : isWs c = false := by
        revert hc
        cases isWs c <;> simp
      simp only [splitAux, this, Bool.false_eq_true, if_false]
      exact ih (c :: acc) w u ys hw tok htok

/-- On a text none of whose whitespace-separated tokens starts with an
uppercase letter, no uppercase letter immediately follows a whitespace
character. -/
theorem no_cap_token_decomp (user_input : Str)
    (H : ∀ w ∈ pySplit user_input, headUpper w = false) :
    ∀ xs w u ys, user_input = xs ++ w :: u :: ys → isWs w = true → isUpperAZ u = false := by
  intro xs w u ys hin hw
  by_cases hu : isUpperAZ u = true
  · exfalso
    have hnw : isWs u = false := isUpperAZ_not_isWs u hu
    obtain ⟨l, tl, hfirst⟩ := splitAux_first ys [u] (by simp)
    have h3 : (u :: l) ∈ splitAux (u :: ys) [] := by
      rw [show splitAux (u :: ys) [] = splitAux ys [u] from by simp [splitAux, hnw]]
      rw [hfirst]
      simp
    have h4 := splitAux_mem xs [] w u ys hw _ h3
    have h5 := H (u :: l) (by rw [pySplit, hin]; exact h4)
    rw [headUpper] at h5
    rw [h5] at hu
    exact absurd hu (by simp)
  · revert hu
    cases isUpperAZ u <;> simp

/-- The fallback scan returns none when no token starts with an
uppercase letter. -/
theorem fallbackScan_none :
    ∀ (ws : List Str), (∀ w ∈ ws, headUpper w = false) → fallbackScan ws = none := by
  intro ws
  induction ws with
  | nil => intro _; rfl
  | cons w rest ih =>
    intro h
    have hw : headUpper w = false := h w (List.mem_cons_self w rest)
    rw [fallbackScan, if_neg (by simp [hw])]
    exact ih fun x hx => h x (List.mem_cons_of_mem w hx)

/-- C5: extract_location returns none on every input text none of whose
whitespace-separated tokens starts with an uppercase letter: both regex
patterns need an uppercase letter right after the whitespace of their
mandatory separator, and the fallback scan only fires on a token
starting with an uppercase letter. -/
theorem extract_location_no_capitalized (user_input : Str)
    (H : ∀ w ∈ pySplit user_input, headUpper w = false) :
    extract_location user_input = none := by
  have hq := no_cap_token_decomp user_input H
  have h1 : searchPat pats1 user_input = none := searchPat_none pats1 user_input hq
  have h2 : searchPat pats2 user_input = none := searchPat_none pats2 user_input hq
  rw [extract_location]
  split
  · rfl
  · simp only [patResult, h1, h2]
    exact fallbackScan_none (pySplit user_input) H

/-- Witness for C5 at a concrete all-lowercase input. -/
theorem extract_location_no_capitalized_witness :
    extract_location ("going to the beach tomorrow".toList) = none :=
  extract_location_no_capitalized ("going to the beach tomorrow".toList) (by decide)
